import Mathlib

/-!
Shallow embedding of `src/backend/fastapi_app.py` (Smart Kitchen backend).

The backend stores everything in DuckDB tables (`users`, `reservations`,
`kitchens`, `appliances`); dates and times of day are TEXT columns of the
fixed forms "YYYY-MM-DD" and "HH:MM", so SQL comparisons on them are
byte-wise lexicographic comparisons.  We model a TEXT value as a `String`
and its SQL ordering as the lexicographic order on `String.toList`
(identical to the byte order on these ASCII strings).

Tables become Lean lists kept in insertion order (DuckDB returns rows of
these append-only tables in insertion order, which is also the order the
Python code relies on for grouping and `fetchone`).  Face embeddings are
`List ℝ`, the usual idealisation of the float vectors handled by numpy.
-/

namespace SmartKitchen

/-- SQL TEXT `<=`, modeled as lexicographic order on the character list. -/
def textLe (a b : String) : Prop := a.toList ≤ b.toList

/-- SQL TEXT `<`, modeled as lexicographic order on the character list. -/
def textLt (a b : String) : Prop := a.toList < b.toList

instance (a b : String) : Decidable (textLe a b) := by
  unfold textLe; infer_instance

instance (a b : String) : Decidable (textLt a b) := by
  unfold textLt; infer_instance

/-- A row of the `appliances` table (`id TEXT PRIMARY KEY, kitchen_id INTEGER,
type TEXT, name TEXT`). -/
structure Appliance where
  id : String
  kitchen_id : Int
  type : String
  name : String
deriving DecidableEq, Repr

/-- A row of the `reservations` table (`created_at` omitted: never read). -/
structure Reservation where
  id : String
  isic_number : String
  date : String
  start_time : String
  end_time : String
  kitchen_id : Int
  appliance_id : String
  appliance_type : String
  status : String
deriving DecidableEq, Repr

/-- The mutable server state the reservation and door-access endpoints touch:
the in-process `tokens` dict (token -> isic), the `users` table restricted to
what matters here (isic, optional enrolled face embedding, in insertion
order), the `appliances` table and the `reservations` table. -/
structure State where
  tokens : List (String × String)
  users : List (String × Option (List ℝ))
  appliances : List Appliance
  reservations : List Reservation

/-- `verify_token`: `tokens.get(token)`. -/
def verify_token (s : State) (token : String) : Option String :=
  s.tokens.lookup token

/-- The query parameters of `POST /reserve`. -/
structure BookReq where
  date : String
  startTime : String
  endTime : String
  kitchenId : Int
  applianceId : String
  token : String
deriving DecidableEq, Repr

/-- The row filter of the conflict-count query in `create_reservation`
(lines 506-515): same date, same *requested* kitchen id, same appliance id,
status `'confirmed'`, and the three-way disjunction of TEXT comparisons
between the stored `[start_time, end_time)` and the requested
`[startTime, endTime)`. -/
def codeConflict (r : Reservation) (req : BookReq) : Bool :=
  r.date == req.date && r.kitchen_id == req.kitchenId &&
  r.appliance_id == req.applianceId && r.status == "confirmed" &&
  ((decide (textLe r.start_time req.startTime) && decide (textLt req.startTime r.end_time)) ||
   (decide (textLt r.start_time req.endTime) && decide (textLe req.endTime r.end_time)) ||
   (decide (textLe req.startTime r.start_time) && decide (textLe r.end_time req.endTime)))

/-- `reservation_id = f"{isic}_{date}_{startTime}_{endTime}"` (line 520). -/
def reservationId (isic : String) (req : BookReq) : String :=
  isic ++ "_" ++ req.date ++ "_" ++ req.startTime ++ "_" ++ req.endTime

/-- The row the INSERT of `create_reservation` writes (lines 531-534). -/
def mkReservation (isic : String) (a : Appliance) (req : BookReq) : Reservation :=
  { id := reservationId isic req
    isic_number := isic
    date := req.date
    start_time := req.startTime
    end_time := req.endTime
    kitchen_id := req.kitchenId
    appliance_id := req.applianceId
    appliance_type := a.type
    status := "confirmed" }

/-- Outcomes of `POST /reserve`: `ok` is the JSON success answer; the errors
are, in order, HTTP 401 "Invalid token", HTTP 400 "Time slot already
reserved", HTTP 400 "Invalid appliance", and the uncaught DuckDB PRIMARY KEY
violation the INSERT raises when the derived reservation id already exists
in the table (the row is not inserted and `conn.commit()` is never
reached). -/
inductive BookOut
  | ok (id : String)
  | invalidToken
  | conflict
  | invalidAppliance
  | duplicateId
deriving DecidableEq, Repr

/-- `create_reservation` (`POST /reserve`, lines 491-538).  The checks run in
source order: token, conflict count, appliance existence (`SELECT type FROM
appliances WHERE id = ?` — note: the requested `kitchenId` is *not* part of
this lookup), then the INSERT, which appends the new row unless its primary
key collides.  Every error path leaves the state unchanged, as in the code
all writes come after all `raise`s. -/
def book (req : BookReq) (s : State) : BookOut × State :=
  match verify_token s req.token with
  | none => (.invalidToken, s)
  | some isic =>
    if s.reservations.any (fun r => codeConflict r req) then
      (.conflict, s)
    else
      let rid := reservationId isic req
      match s.appliances.find? (fun a => a.id == req.applianceId) with
      | none => (.invalidAppliance, s)
      | some a =>
        if s.reservations.any (fun r => r.id == rid) then
          (.duplicateId, s)
        else
          (.ok rid,
           { s with reservations := s.reservations ++ [mkReservation isic a req] })

/-- Outcomes of `DELETE /reservation/{reservation_id}`: success, HTTP 401
"Invalid token", or HTTP 403 "Not your reservation" — the code raises the
*same* 403 both when no row has the given id and when the first matching
row's owner is not the caller (`if not owner or owner[0] != isic`). -/
inductive CancelOut
  | ok
  | invalidToken
  | notYourReservation
deriving DecidableEq, Repr

/-- `cancel_reservation` (lines 582-604): token check, owner fetch
(`fetchone` on the id filter = first matching row), then
`UPDATE reservations SET status = 'cancelled' WHERE id = ?`. -/
def cancel (rid token : String) (s : State) : CancelOut × State :=
  match verify_token s token with
  | none => (.invalidToken, s)
  | some isic =>
    match s.reservations.find? (fun r => r.id == rid) with
    | none => (.notYourReservation, s)
    | some owner =>
      if owner.isic_number == isic then
        (.ok,
         { s with reservations :=
            s.reservations.map (fun q => if q.id == rid then { q with status := "cancelled" } else q) })
      else (.notYourReservation, s)

/-- The constants `get_availability` advertises in its response
(lines 480-482): operating hours and duration bounds in minutes. -/
def operatingHoursStart : String := "06:00"

/-- End of the advertised operating hours (line 480). -/
def operatingHoursEnd : String := "23:00"

/-- Advertised `minDuration` (line 481). -/
def minDuration : Nat := 5

/-- Advertised `maxDuration` (line 482). -/
def maxDuration : Nat := 120

/-- One element of an appliance's `reservations` array in the
`/availability` response.  The code builds it as
`{"id": res[0], "startTime": res[1], "endTime": res[2], "userId": 1}` where
`res` is a row of `SELECT appliance_id, start_time, end_time ...` — so the
`id` field receives the *appliance* id. -/
structure ResItem where
  id : String
  startTime : String
  endTime : String
  userId : Int
deriving DecidableEq, Repr

/-- The reservation rows the `/availability` query fetches (lines 448-452):
same date, same kitchen id, status confirmed, in table order. -/
def availabilityRows (date : String) (kitchen : Int) (s : State) : List Reservation :=
  s.reservations.filter
    (fun r => r.date == date && r.kitchen_id == kitchen && r.status == "confirmed")

/-- The grouping loop of `get_availability` (lines 455-465): the items listed
under one appliance id, in row order, each built from `(appliance_id,
start_time, end_time)` with `userId` hard-coded to 1. -/
def applianceReservations (date : String) (kitchen : Int) (s : State) (appId : String) :
    List ResItem :=
  ((availabilityRows date kitchen s).filter (fun r => r.appliance_id == appId)).map
    (fun r => { id := r.appliance_id, startTime := r.start_time, endTime := r.end_time, userId := 1 })

/-- One element of the `appliances` array of the `/availability` response. -/
structure AvailabilityEntry where
  applianceId : String
  applianceType : String
  applianceName : String
  reservations : List ResItem
deriving DecidableEq, Repr

/-- `get_availability` (lines 435-485): every appliance of the requested
kitchen, in table order, each with its grouped confirmed reservations for
the date (or `[]`). -/
def get_availability (date : String) (kitchen : Int) (s : State) : List AvailabilityEntry :=
  (s.appliances.filter (fun a => a.kitchen_id == kitchen)).map
    (fun a =>
      { applianceId := a.id
        applianceType := a.type
        applianceName := a.name
        reservations := applianceReservations date kitchen s a.id })

/-- The spec's overlap rule for half-open interval endpoints (spec section
4.4): `[s1,e1)` and `[s2,e2)` overlap iff `s1 < e2 AND s2 < e1`, in SQL TEXT
order. -/
def specOverlap (s1 e1 s2 e2 : String) : Prop :=
  textLt s1 e2 ∧ textLt s2 e1

instance (s1 e1 s2 e2 : String) : Decidable (specOverlap s1 e1 s2 e2) := by
  unfold specOverlap; infer_instance

/-- `np.dot` of the two embeddings (equal-length vectors in practice). -/
noncomputable def dotList (a b : List ℝ) : ℝ :=
  (List.zipWith (fun x y => x * y) a b).sum

/-- `np.linalg.norm`: the Euclidean norm, square root of the sum of
squares. -/
noncomputable def norm2 (v : List ℝ) : ℝ :=
  Real.sqrt ((v.map (fun x => x * x)).sum)

open Classical in
/-- `cosine_similarity` (lines 149-161): 0 when either norm is zero, else
`dot / (norm1 * norm2)`. -/
noncomputable def cosine_similarity (e1 e2 : List ℝ) : ℝ :=
  if norm2 e1 = 0 ∨ norm2 e2 = 0 then 0
  else dotList e1 e2 / (norm2 e1 * norm2 e2)

/-- The scan loop of `find_matching_user` (lines 171-180): walk the enrolled
gallery in table order, carrying `(best_match, best_similarity)`, replacing
them only on a strictly larger similarity (`similarity > best_similarity`). -/
noncomputable def fmuScan (probe : List ℝ) :
    List (String × List ℝ) → Option String → ℝ → Option String × ℝ
  | [], best, bestSim => (best, bestSim)
  | (isic, emb) :: rest, best, bestSim =>
    if bestSim < cosine_similarity probe emb then
      fmuScan probe rest (some isic) (cosine_similarity probe emb)
    else
      fmuScan probe rest best bestSim

open Classical in
/-- `find_matching_user` (lines 163-185): scan from `(None, 0.0)`, then
return `best_match` when `best_similarity >= threshold`, else `None`. -/
noncomputable def find_matching_user (gallery : List (String × List ℝ))
    (probe : List ℝ) (threshold : ℝ) : Option String :=
  let bs := fmuScan probe gallery none 0
  if threshold ≤ bs.2 then bs.1 else none

/-- The rows of `SELECT isic_number, face_embedding FROM users WHERE
face_embedding IS NOT NULL`, in table order. -/
def enrolled (users : List (String × Option (List ℝ))) : List (String × List ℝ) :=
  users.filterMap (fun u => u.2.map (fun v => (u.1, v)))

/-- The instant `datetime.now()` observed by `esp_check`, with the fields the
code formats: `strftime("%Y-%m-%d")` is the `date` field, and
`strftime("%H:%M")` is built from `hour` and `minute` — the seconds are
dropped by the format string. -/
structure Instant where
  date : String
  hour : Nat
  minute : Nat
  second : Nat
deriving DecidableEq, Repr

/-- Two-digit zero padding, as `%H` / `%M` produce. -/
def pad2 (n : Nat) : String :=
  if n < 10 then "0" ++ toString n else toString n

/-- `now.strftime("%H:%M")`. -/
def hhmm (t : Instant) : String := pad2 t.hour ++ ":" ++ pad2 t.minute

/-- `esp_check` (lines 648-672), taken from the point where the external
embedding model has produced the probe vector: resolve the face against the
enrolled gallery with threshold 0.6; on no match answer `False` at once;
otherwise answer whether some reservation row has this owner, today's date,
`start_time <= now <= end_time` (TEXT comparisons on "HH:MM") and status
confirmed. -/
noncomputable def esp_check (probe : List ℝ) (now : Instant) (s : State) : Bool :=
  match find_matching_user (enrolled s.users) probe (6/10 : ℝ) with
  | none => false
  | some isic =>
    s.reservations.any (fun r =>
      r.isic_number == isic && r.date == now.date &&
      decide (textLe r.start_time (hhmm now)) &&
      decide (textLe (hhmm now) r.end_time) &&
      r.status == "confirmed")

/-- A booking or cancellation request, for reasoning about arbitrary request
sequences against the two mutating endpoints. -/
inductive Op
  | book (req : BookReq)
  | cancel (rid token : String)

/-- The state after serving one request (responses discarded). -/
def applyOp (s : State) : Op → State
  | .book req => (book req s).2
  | .cancel rid token => (SmartKitchen.cancel rid token s).2

/-- The state after serving a sequence of requests in order. -/
def runOps (s : State) (ops : List Op) : State := ops.foldl applyOp s

/-! ### Basic lemmas about the conflict predicate and the two mutators -/

lemma specOverlap_symm {s1 e1 s2 e2 : String} :
    specOverlap s1 e1 s2 e2 ↔ specOverlap s2 e2 s1 e1 := by
  unfold specOverlap; exact and_comm

lemma codeConflict_eq_true_iff (r : Reservation) (req : BookReq) :
    codeConflict r req = true ↔
      r.date = req.date ∧ r.kitchen_id = req.kitchenId ∧
      r.appliance_id = req.applianceId ∧ r.status = "confirmed" ∧
      ((textLe r.start_time req.startTime ∧ textLt req.startTime r.end_time) ∨
       (textLt r.start_time req.endTime ∧ textLe req.endTime r.end_time) ∨
       (textLe req.startTime r.start_time ∧ textLe r.end_time req.endTime)) := by
  simp [codeConflict, and_assoc, or_assoc]

/-- The spec's overlap rule implies the code's three-way disjunction,
with no assumption on either interval being nonempty: the SQL conflict
test never misses a rule-overlap. -/
lemma specOverlap_implies_codeTimes {s1 e1 s2 e2 : String}
    (h : specOverlap s1 e1 s2 e2) :
    (textLe s1 s2 ∧ textLt s2 e1) ∨ (textLt s1 e2 ∧ textLe e2 e1) ∨
      (textLe s2 s1 ∧ textLe e1 e2) := by
  obtain ⟨h1, h2⟩ := h
  unfold textLe textLt at *
  by_cases hss : s1.toList ≤ s2.toList
  · exact Or.inl ⟨hss, h2⟩
  · by_cases hee : e1.toList ≤ e2.toList
    · exact Or.inr (Or.inr ⟨le_of_lt (lt_of_not_le hss), hee⟩)
    · exact Or.inr (Or.inl ⟨h1, le_of_lt (lt_of_not_le hee)⟩)

/-- Conversely, when both intervals are nonempty (`start < end`), the code's
three-way disjunction implies the spec's overlap rule. -/
lemma codeTimes_implies_specOverlap {s1 e1 s2 e2 : String}
    (hv1 : textLt s1 e1) (hv2 : textLt s2 e2)
    (h : (textLe s1 s2 ∧ textLt s2 e1) ∨ (textLt s1 e2 ∧ textLe e2 e1) ∨
      (textLe s2 s1 ∧ textLe e1 e2)) :
    specOverlap s1 e1 s2 e2 := by
  unfold specOverlap textLe textLt at *
  rcases h with ⟨ha, hb⟩ | ⟨ha, hb⟩ | ⟨ha, hb⟩
  · exact ⟨lt_of_le_of_lt ha hv2, hb⟩
  · exact ⟨ha, lt_of_lt_of_le hv2 hb⟩
  · exact ⟨lt_of_lt_of_le hv1 hb, lt_of_le_of_lt ha hv1⟩

lemma book_ok_eq {req : BookReq} {s : State} {isic : String} {a : Appliance}
    (htok : verify_token s req.token = some isic)
    (hnc : s.reservations.any (fun r => codeConflict r req) = false)
    (happ : s.appliances.find? (fun x => x.id == req.applianceId) = some a)
    (hfresh : s.reservations.any (fun r => r.id == reservationId isic req) = false) :
    book req s = (.ok (reservationId isic req),
      { s with reservations := s.reservations ++ [mkReservation isic a req] }) := by
  simp [book, htok, hnc, happ, hfresh]

lemma book_conflict_eq {req : BookReq} {s : State} {isic : String}
    (htok : verify_token s req.token = some isic)
    (hc : s.reservations.any (fun r => codeConflict r req) = true) :
    book req s = (.conflict, s) := by
  simp [book, htok, hc]

lemma book_invalidAppliance_eq {req : BookReq} {s : State} {isic : String}
    (htok : verify_token s req.token = some isic)
    (hnc : s.reservations.any (fun r => codeConflict r req) = false)
    (happ : s.appliances.find? (fun x => x.id == req.applianceId) = none) :
    book req s = (.invalidAppliance, s) := by
  simp [book, htok, hnc, happ]

lemma book_duplicateId_eq {req : BookReq} {s : State} {isic : String} {a : Appliance}
    (htok : verify_token s req.token = some isic)
    (hnc : s.reservations.any (fun r => codeConflict r req) = false)
    (happ : s.appliances.find? (fun x => x.id == req.applianceId) = some a)
    (hdup : s.reservations.any (fun r => r.id == reservationId isic req) = true) :
    book req s = (.duplicateId, s) := by
  simp [book, htok, hnc, happ, hdup]

lemma cancel_denied_eq {rid token isic : String} {s : State}
    (htok : verify_token s token = some isic)
    (h : ∀ r, s.reservations.find? (fun q => q.id == rid) = some r → r.isic_number ≠ isic) :
    cancel rid token s = (.notYourReservation, s) := by
  unfold cancel
  rw [htok]
  cases hf : s.reservations.find? (fun q => q.id == rid) with
  | none => rfl
  | some r =>
    have : (r.isic_number == isic) = false := by
      simp [h r hf]
    simp [this]

lemma cancel_ok_eq {rid token isic : String} {s : State} {r : Reservation}
    (htok : verify_token s token = some isic)
    (hf : s.reservations.find? (fun q => q.id == rid) = some r)
    (hown : r.isic_number = isic) :
    cancel rid token s = (.ok,
      { s with reservations :=
          s.reservations.map (fun q => if q.id == rid then { q with status := "cancelled" } else q) }) := by
  unfold cancel
  rw [htok, hf]
  simp [hown]

/-- Shape of the reservation table after one request: unchanged, extended by
the freshly inserted row (which then passed the conflict scan), or rewritten
by the cancellation UPDATE. -/
lemma applyOp_reservations (s : State) (op : Op) :
    (applyOp s op).reservations = s.reservations ∨
    (∃ req isic a, op = .book req ∧
        (∀ r ∈ s.reservations, codeConflict r req = false) ∧
        (applyOp s op).reservations = s.reservations ++ [mkReservation isic a req]) ∨
    (∃ rid, (applyOp s op).reservations =
        s.reservations.map (fun q => if q.id == rid then { q with status := "cancelled" } else q)) := by
  cases op with
  | book req =>
    cases htok : verify_token s req.token with
    | none => left; simp [applyOp, book, htok]
    | some isic =>
      cases hc : s.reservations.any (fun r => codeConflict r req) with
      | true => left; simp [applyOp, book_conflict_eq htok hc]
      | false =>
        cases happ : s.appliances.find? (fun a => a.id == req.applianceId) with
        | none => left; simp [applyOp, book_invalidAppliance_eq htok hc happ]
        | some a =>
          cases hdup : s.reservations.any (fun r => r.id == reservationId isic req) with
          | true => left; simp [applyOp, book_duplicateId_eq htok hc happ hdup]
          | false =>
            right; left
            refine ⟨req, isic, a, rfl, ?_, ?_⟩
            · intro r hr
              simpa using List.any_eq_false.mp hc r hr
            · simp [applyOp, book_ok_eq htok hc happ hdup]
  | cancel rid token =>
    cases htok : verify_token s token with
    | none => left; simp [applyOp, SmartKitchen.cancel, htok]
    | some isic =>
      cases hf : s.reservations.find? (fun q => q.id == rid) with
      | none =>
        left
        have hd := cancel_denied_eq htok
          (fun r h => by rw [hf] at h; exact Option.noConfusion h)
        simp [applyOp, hd]
      | some owner =>
        cases hown : owner.isic_number == isic with
        | false =>
          left
          have hne : owner.isic_number ≠ isic := by simpa using hown
          have hd := cancel_denied_eq htok
            (fun r h => by rw [hf] at h; injection h with h2; rw [← h2]; exact hne)
          simp [applyOp, hd]
        | true =>
          right; right
          refine ⟨rid, ?_⟩
          have hok := cancel_ok_eq htok hf (by simpa using hown)
          simp [applyOp, hok]

/-! ### C1: the no-overlap invariant -/

/-- The invariant exactly as claim C1 states it: no two distinct confirmed
rows with the same appliance id and the same date have rule-overlapping
`[start,end)` intervals. -/
def confirmedOverlapFree (s : State) : Prop :=
  ∀ r1 ∈ s.reservations, ∀ r2 ∈ s.reservations,
    (r1 ≠ r2 ∧ r1.status = "confirmed" ∧ r2.status = "confirmed" ∧
     r1.appliance_id = r2.appliance_id ∧ r1.date = r2.date) →
    ¬ specOverlap r1.start_time r1.end_time r2.start_time r2.end_time

instance (s : State) : Decidable (confirmedOverlapFree s) := by
  unfold confirmedOverlapFree; infer_instance

/-- The invariant the code actually maintains: as above but additionally
restricted to rows carrying the same stored kitchen id, because the conflict
query of `create_reservation` filters on the *requested* `kitchen_id` and the
appliance-exists check never verifies that the appliance belongs to that
kitchen. -/
def confirmedOverlapFreePerKitchen (s : State) : Prop :=
  ∀ r1 ∈ s.reservations, ∀ r2 ∈ s.reservations,
    (r1 ≠ r2 ∧ r1.status = "confirmed" ∧ r2.status = "confirmed" ∧
     r1.appliance_id = r2.appliance_id ∧ r1.date = r2.date ∧
     r1.kitchen_id = r2.kitchen_id) →
    ¬ specOverlap r1.start_time r1.end_time r2.start_time r2.end_time

instance (s : State) : Decidable (confirmedOverlapFreePerKitchen s) := by
  unfold confirmedOverlapFreePerKitchen; infer_instance

lemma mkReservation_fields (isic : String) (a : Appliance) (req : BookReq) :
    (mkReservation isic a req).status = "confirmed" ∧
    (mkReservation isic a req).appliance_id = req.applianceId ∧
    (mkReservation isic a req).date = req.date ∧
    (mkReservation isic a req).kitchen_id = req.kitchenId ∧
    (mkReservation isic a req).start_time = req.startTime ∧
    (mkReservation isic a req).end_time = req.endTime := by
  simp [mkReservation]

/-- An old confirmed row on the same appliance, date and kitchen as a
request that passed the conflict scan cannot rule-overlap the request. -/
lemma no_overlap_of_conflict_false {r : Reservation} {req : BookReq}
    (hcc : codeConflict r req = false)
    (hst : r.status = "confirmed") (hap : r.appliance_id = req.applianceId)
    (hd : r.date = req.date) (hk : r.kitchen_id = req.kitchenId) :
    ¬ specOverlap r.start_time r.end_time req.startTime req.endTime := by
  intro hov
  have : codeConflict r req = true :=
    (codeConflict_eq_true_iff r req).mpr
      ⟨hd, hk, hap, hst, specOverlap_implies_codeTimes hov⟩
  rw [this] at hcc
  exact Bool.noConfusion hcc

lemma inv_preserved {s : State} (op : Op)
    (h : confirmedOverlapFreePerKitchen s) :
    confirmedOverlapFreePerKitchen (applyOp s op) := by
  rcases applyOp_reservations s op with heq | ⟨req, isic, a, -, hnc, heq⟩ | ⟨rid, heq⟩
  · intro r1 h1 r2 h2
    rw [heq] at h1 h2
    exact h r1 h1 r2 h2
  · intro r1 h1 r2 h2 ⟨hne, hc1, hc2, hap, hdate, hk⟩
    rw [heq] at h1 h2
    obtain ⟨hm, -, -, -, hms, hme⟩ := mkReservation_fields isic a req
    rcases List.mem_append.mp h1 with h1 | h1 <;>
      rcases List.mem_append.mp h2 with h2 | h2
    · exact h r1 h1 r2 h2 ⟨hne, hc1, hc2, hap, hdate, hk⟩
    · have h2' : r2 = mkReservation isic a req := by simpa using h2
      subst h2'
      rw [hms, hme]
      exact no_overlap_of_conflict_false (hnc r1 h1) hc1
        (by simpa [mkReservation] using hap) (by simpa [mkReservation] using hdate)
        (by simpa [mkReservation] using hk)
    · have h1' : r1 = mkReservation isic a req := by simpa using h1
      subst h1'
      rw [hms, hme]
      intro hov
      exact no_overlap_of_conflict_false (hnc r2 h2) hc2
        (by simpa [mkReservation] using hap.symm) (by simpa [mkReservation] using hdate.symm)
        (by simpa [mkReservation] using hk.symm) (specOverlap_symm.mp hov)
    · have h1' : r1 = mkReservation isic a req := by simpa using h1
      have h2' : r2 = mkReservation isic a req := by simpa using h2
      exact absurd (h1'.trans h2'.symm) hne
  · intro r1 h1 r2 h2 ⟨hne, hc1, hc2, hap, hdate, hk⟩
    rw [heq] at h1 h2
    obtain ⟨q1, hq1, hfq1⟩ := List.mem_map.mp h1
    obtain ⟨q2, hq2, hfq2⟩ := List.mem_map.mp h2
    have e1 : r1 = q1 := by
      by_cases hb : (q1.id == rid) = true
      · rw [hb] at hfq1
        simp only [if_true] at hfq1
        rw [← hfq1] at hc1
        simp at hc1
      · rw [Bool.not_eq_true] at hb
        rw [hb] at hfq1
        simpa using hfq1.symm
    have e2 : r2 = q2 := by
      by_cases hb : (q2.id == rid) = true
      · rw [hb] at hfq2
        simp only [if_true] at hfq2
        rw [← hfq2] at hc2
        simp at hc2
      · rw [Bool.not_eq_true] at hb
        rw [hb] at hfq2
        simpa using hfq2.symm
    subst e1; subst e2
    exact h r1 hq1 r2 hq2 ⟨hne, hc1, hc2, hap, hdate, hk⟩

lemma inv_runOps (ops : List Op) (s : State)
    (h : confirmedOverlapFreePerKitchen s) :
    confirmedOverlapFreePerKitchen (runOps s ops) := by
  induction ops generalizing s with
  | nil => exact h
  | cons op ops ih => exact ih (applyOp s op) (inv_preserved op h)

/-- Claim C1, amended: for every state whose reservation table starts empty
and every sequence of book and cancel requests (any kitchen ids, appliance
ids, dates, intervals), no two distinct confirmed reservations with the same
appliance id, the same date *and the same stored kitchen id* have
rule-overlapping `[start,end)` intervals.  (The kitchen restriction is
necessary: see the counterexample.) -/
theorem C1_kitchen_scoped_no_overlap_invariant (s0 : State) (ops : List Op)
    (h0 : s0.reservations = []) :
    confirmedOverlapFreePerKitchen (runOps s0 ops) := by
  apply inv_runOps
  intro r1 h1
  rw [h0] at h1
  exact absurd h1 (List.not_mem_nil r1)

/-- A concrete state with one appliance (belonging to kitchen 1) and two
logged-in users, from which two bookings of the *same* appliance, date and
interval — one naming `kitchenId = 1`, the other `kitchenId = 2` — both
succeed, because the conflict query filters on the requested kitchen id and
appliance-to-kitchen membership is never checked. -/
def c1State : State :=
  { tokens := [("tokA", "S1111111111A"), ("tokB", "S2222222222B")]
    users := []
    appliances := [⟨"k1-oven3", 1, "oven", "Oven"⟩]
    reservations := [] }

/-- The two conflicting booking requests of the C1 counterexample. -/
def c1Ops : List Op :=
  [.book ⟨"2025-01-01", "10:00", "11:00", 1, "k1-oven3", "tokA"⟩,
   .book ⟨"2025-01-01", "10:00", "11:00", 2, "k1-oven3", "tokB"⟩]

/-- Claim C1 as stated is false: after the two bookings of `c1Ops` the store
holds two confirmed reservations on the same appliance id and date with
identical (hence overlapping) `[10:00,11:00)` intervals. -/
theorem C1_counterexample : ¬ confirmedOverlapFree (runOps c1State c1Ops) := by
  decide

/-- Witness for the amended C1 at the concrete counterexample input: the
kitchen-scoped invariant does hold there. -/
theorem C1_witness : confirmedOverlapFreePerKitchen (runOps c1State c1Ops) :=
  C1_kitchen_scoped_no_overlap_invariant c1State c1Ops rfl

/-! ### C2: cancel then re-book the same slot -/

/-- Claim C2, amended: starting from an empty reservation table, a book
succeeds; the owner's cancel succeeds; but a second book by the *same*
identity of the exact same slot fails with the duplicate-primary-key error,
because the soft-cancelled row keeps the deterministic id derived from
`(identity, date, start, end)`.  The interval itself is freed: a booking of
the same slot whose derived id differs from the retained one (e.g. by
another identity) succeeds. -/
theorem C2_rebook_same_slot_fails_on_retained_id
    (s : State) (req : BookReq) (isic : String) (a : Appliance)
    (htok : verify_token s req.token = some isic)
    (happ : s.appliances.find? (fun x => x.id == req.applianceId) = some a)
    (hempty : s.reservations = []) :
    (book req s).1 = .ok (reservationId isic req) ∧
    (cancel (reservationId isic req) req.token (book req s).2).1 = .ok ∧
    (book req (cancel (reservationId isic req) req.token (book req s).2).2).1 = .duplicateId ∧
    (∀ req2 isic2 a2,
      verify_token s req2.token = some isic2 →
      req2.date = req.date → req2.startTime = req.startTime → req2.endTime = req.endTime →
      s.appliances.find? (fun x => x.id == req2.applianceId) = some a2 →
      reservationId isic2 req2 ≠ reservationId isic req →
      (book req2 (cancel (reservationId isic req) req.token (book req s).2).2).1 =
        .ok (reservationId isic2 req2)) := by
  have hcc : ("cancelled" == "confirmed") = false := rfl
  obtain ⟨tk, us, ap, rs⟩ := s
  replace hempty : rs = [] := hempty
  subst hempty
  replace htok : List.lookup req.token tk = some isic := htok
  replace happ : List.find? (fun x => x.id == req.applianceId) ap = some a := happ
  refine ⟨?_, ?_, ?_, ?_⟩
  · simp [book, verify_token, htok, happ]
  · simp [book, cancel, verify_token, htok, happ, mkReservation]
  · simp [book, cancel, verify_token, htok, happ, mkReservation, codeConflict, hcc]
  · intro req2 isic2 a2 htok2 hd hst hen happ2 hne
    replace htok2 : List.lookup req2.token tk = some isic2 := htok2
    replace happ2 : List.find? (fun x => x.id == req2.applianceId) ap = some a2 := happ2
    have hne' : (reservationId isic req == reservationId isic2 req2) = false :=
      beq_eq_false_iff_ne.mpr (fun h => hne h.symm)
    simp [book, cancel, verify_token, htok, happ, htok2, happ2, mkReservation,
      codeConflict, hcc, hne']

/-- The concrete C2 scenario: one user, one appliance, empty table. -/
def c2State : State :=
  { tokens := [("tokA", "S1111111111A")]
    users := []
    appliances := [⟨"k1-oven3", 1, "oven", "Oven"⟩]
    reservations := [] }

/-- The concrete slot booked, cancelled and re-booked in the C2 scenario. -/
def c2Req : BookReq := ⟨"2025-01-01", "10:00", "10:30", 1, "k1-oven3", "tokA"⟩

/-- Claim C2 as stated is false: booking `[10:00,10:30)` succeeds, the
owner's cancel succeeds, and the same identity's re-book of the exact same
slot then answers the duplicate-primary-key failure instead of a new
confirmed reservation. -/
theorem C2_counterexample :
    (book c2Req c2State).1 = .ok "S1111111111A_2025-01-01_10:00_10:30" ∧
    (cancel "S1111111111A_2025-01-01_10:00_10:30" "tokA" (book c2Req c2State).2).1 = .ok ∧
    (book c2Req
      (cancel "S1111111111A_2025-01-01_10:00_10:30" "tokA" (book c2Req c2State).2).2).1 =
      .duplicateId := by
  decide

/-- Witness for the amended C2, instantiated at the concrete scenario. -/
theorem C2_witness :
    (book c2Req c2State).1 = .ok (reservationId "S1111111111A" c2Req) :=
  (C2_rebook_same_slot_fails_on_retained_id c2State c2Req "S1111111111A"
    ⟨"k1-oven3", 1, "oven", "Oven"⟩ rfl rfl rfl).1

/-! ### C3: rejection iff overlap -/

/-- Claim C3, amended: for a valid token, an existing appliance, a fresh
derived id, a nonempty requested interval, and confirmed rows on the
requested (appliance, date, kitchenId) that all have start < end, the
booking answers the conflict error iff the requested interval rule-overlaps
one of *those* rows — rows stored under a different kitchen id never
participate — and otherwise it succeeds.  In particular a touching interval
(new start = existing end or new end = existing start) does not
rule-overlap, so it is accepted. -/
theorem C3_reject_iff_overlap
    (req : BookReq) (s : State) (isic : String) (a : Appliance)
    (htok : verify_token s req.token = some isic)
    (happ : s.appliances.find? (fun x => x.id == req.applianceId) = some a)
    (hfresh : s.reservations.any (fun r => r.id == reservationId isic req) = false)
    (hne : textLt req.startTime req.endTime)
    (hvalid : ∀ r ∈ s.reservations, r.status = "confirmed" → r.date = req.date →
      r.kitchen_id = req.kitchenId → r.appliance_id = req.applianceId →
      textLt r.start_time r.end_time) :
    ((book req s).1 = .conflict ↔
      ∃ r ∈ s.reservations, r.status = "confirmed" ∧ r.date = req.date ∧
        r.kitchen_id = req.kitchenId ∧ r.appliance_id = req.applianceId ∧
        specOverlap r.start_time r.end_time req.startTime req.endTime) ∧
    ((book req s).1 = .conflict ∨ (book req s).1 = .ok (reservationId isic req)) := by
  have hequiv : (s.reservations.any (fun r => codeConflict r req) = true) ↔
      ∃ r ∈ s.reservations, r.status = "confirmed" ∧ r.date = req.date ∧
        r.kitchen_id = req.kitchenId ∧ r.appliance_id = req.applianceId ∧
        specOverlap r.start_time r.end_time req.startTime req.endTime := by
    rw [List.any_eq_true]
    constructor
    · rintro ⟨r, hr, hcc⟩
      obtain ⟨hd, hk, hap, hst, htrio⟩ := (codeConflict_eq_true_iff r req).mp hcc
      exact ⟨r, hr, hst, hd, hk, hap,
        codeTimes_implies_specOverlap (hvalid r hr hst hd hk hap) hne htrio⟩
    · rintro ⟨r, hr, hst, hd, hk, hap, hov⟩
      exact ⟨r, hr, (codeConflict_eq_true_iff r req).mpr
        ⟨hd, hk, hap, hst, specOverlap_implies_codeTimes hov⟩⟩
  cases hc : s.reservations.any (fun r => codeConflict r req) with
  | true =>
    rw [book_conflict_eq htok hc]
    exact ⟨iff_of_true rfl (hequiv.mp hc), Or.inl rfl⟩
  | false =>
    rw [book_ok_eq htok hc happ hfresh]
    refine ⟨iff_of_false (by simp) ?_, Or.inr rfl⟩
    intro hex
    rw [hequiv.symm.mp hex] at hc
    exact Bool.noConfusion hc

/-- C3 counterexample scenario: one appliance, belonging to kitchen 1, two
users, empty table. -/
def c3State : State :=
  { tokens := [("tokA", "S1111111111A"), ("tokB", "S2222222222B")]
    users := []
    appliances := [⟨"k1-oven3", 1, "oven", "Oven"⟩]
    reservations := [] }

/-- First C3 booking: `[10:00,11:00)` on the appliance, naming kitchen 1. -/
def c3Req1 : BookReq := ⟨"2025-01-01", "10:00", "11:00", 1, "k1-oven3", "tokA"⟩

/-- Second C3 booking: the overlapping `[10:15,10:45)` on the *same*
appliance and date, naming kitchen 2. -/
def c3Req2 : BookReq := ⟨"2025-01-01", "10:15", "10:45", 2, "k1-oven3", "tokB"⟩

/-- Claim C3 as stated is false: after the first booking the store holds a
confirmed row on the same appliance and date that rule-overlaps the second
request, yet the second booking is accepted, because the conflict query
additionally filters on the requested kitchen id. -/
theorem C3_counterexample :
    (book c3Req1 c3State).1 = .ok "S1111111111A_2025-01-01_10:00_11:00" ∧
    (∃ r ∈ (book c3Req1 c3State).2.reservations,
      r.status = "confirmed" ∧ r.appliance_id = c3Req2.applianceId ∧
      r.date = c3Req2.date ∧
      specOverlap r.start_time r.end_time c3Req2.startTime c3Req2.endTime) ∧
    (book c3Req2 (book c3Req1 c3State).2).1 = .ok "S2222222222B_2025-01-01_10:15_10:45" := by
  decide

/-- C3 witness scenario: a confirmed `[10:00,10:30)` row on the appliance in
kitchen 1. -/
def c3wState : State :=
  { tokens := [("tokB", "S2222222222B")]
    users := []
    appliances := [⟨"k1-oven3", 1, "oven", "Oven"⟩]
    reservations := [⟨"S1111111111A_2025-01-01_10:00_10:30", "S1111111111A",
      "2025-01-01", "10:00", "10:30", 1, "k1-oven3", "oven", "confirmed"⟩] }

/-- C3 witness request: the overlapping `[10:15,10:45)` in the same kitchen. -/
def c3wReq : BookReq := ⟨"2025-01-01", "10:15", "10:45", 1, "k1-oven3", "tokB"⟩

/-- Witness for the amended C3 at a concrete overlapping request. -/
theorem C3_witness :
    (book c3wReq c3wState).1 = .conflict ∨
    (book c3wReq c3wState).1 = .ok (reservationId "S2222222222B" c3wReq) :=
  (C3_reject_iff_overlap c3wReq c3wState "S2222222222B" ⟨"k1-oven3", 1, "oven", "Oven"⟩
    rfl rfl (by decide) (by decide) (by decide)).2

/-! ### C4: no start/end validation -/

/-- Claim C4, amended: `create_reservation` performs no `start < end`
validation at all; a request with start >= end passes through the same
token, conflict, appliance and primary-key checks as any other and, when
those pass, a *confirmed* reservation with the degenerate interval is
persisted. -/
theorem C4_no_start_end_validation
    (req : BookReq) (s : State) (isic : String) (a : Appliance)
    (htok : verify_token s req.token = some isic)
    (happ : s.appliances.find? (fun x => x.id == req.applianceId) = some a)
    (hnc : s.reservations.any (fun r => codeConflict r req) = false)
    (hfresh : s.reservations.any (fun r => r.id == reservationId isic req) = false)
    (hse : textLe req.endTime req.startTime) :
    (book req s).1 = .ok (reservationId isic req) ∧
    (book req s).2.reservations = s.reservations ++ [mkReservation isic a req] ∧
    (mkReservation isic a req).status = "confirmed" := by
  rw [book_ok_eq htok hnc happ hfresh]
  exact ⟨rfl, rfl, rfl⟩

/-- C4 counterexample scenario: one user, one appliance, empty table. -/
def c4State : State :=
  { tokens := [("tokA", "S1111111111A")]
    users := []
    appliances := [⟨"k1-oven3", 1, "oven", "Oven"⟩]
    reservations := [] }

/-- The C4 request with start "12:00" after end "10:00". -/
def c4Req : BookReq := ⟨"2025-01-01", "12:00", "10:00", 1, "k1-oven3", "tokA"⟩

/-- Claim C4 as stated is false: the reversed-interval request is not
rejected as a validation error — it succeeds and the reservation store
changes, gaining a confirmed row with start "12:00" >= end "10:00". -/
theorem C4_counterexample :
    textLe c4Req.endTime c4Req.startTime ∧
    (book c4Req c4State).1 = .ok "S1111111111A_2025-01-01_12:00_10:00" ∧
    (book c4Req c4State).2.reservations =
      [⟨"S1111111111A_2025-01-01_12:00_10:00", "S1111111111A", "2025-01-01",
        "12:00", "10:00", 1, "k1-oven3", "oven", "confirmed"⟩] := by
  decide

/-- Witness for the amended C4 at the concrete reversed-interval request. -/
theorem C4_witness :
    (book c4Req c4State).1 = .ok (reservationId "S1111111111A" c4Req) :=
  (C4_no_start_end_validation c4Req c4State "S1111111111A"
    ⟨"k1-oven3", 1, "oven", "Oven"⟩ rfl rfl rfl rfl (by decide)).1

/-! ### C5: the invalid-appliance check -/

/-- Claim C5, amended: provided the conflict scan fired no row, the booking
answers the invalid-appliance error iff the appliance *id* does not exist in
the appliances table — whether the appliance belongs to the requested
kitchenId is never checked — and on that error nothing is persisted. -/
theorem C5_invalid_appliance_iff_unknown_id
    (req : BookReq) (s : State) (isic : String)
    (htok : verify_token s req.token = some isic)
    (hnc : s.reservations.any (fun r => codeConflict r req) = false) :
    ((book req s).1 = .invalidAppliance ↔
      s.appliances.find? (fun x => x.id == req.applianceId) = none) ∧
    ((book req s).1 = .invalidAppliance → (book req s).2 = s) := by
  cases happ : s.appliances.find? (fun x => x.id == req.applianceId) with
  | none =>
    rw [book_invalidAppliance_eq htok hnc happ]
    exact ⟨iff_of_true rfl rfl, fun _ => rfl⟩
  | some a =>
    cases hdup : s.reservations.any (fun r => r.id == reservationId isic req) with
    | true =>
      rw [book_duplicateId_eq htok hnc happ hdup]
      exact ⟨iff_of_false (by simp) (by simp [happ]), fun h => absurd h (by simp)⟩
    | false =>
      rw [book_ok_eq htok hnc happ hdup]
      exact ⟨iff_of_false (by simp) (by simp [happ]), fun h => absurd h (by simp)⟩

/-- C5 counterexample scenario: the only appliance belongs to kitchen 1. -/
def c5State : State :=
  { tokens := [("tokA", "S1111111111A")]
    users := []
    appliances := [⟨"k1-oven3", 1, "oven", "Oven"⟩]
    reservations := [] }

/-- The C5 request: an existing appliance id but `kitchenId = 99`, a kitchen
the appliance does not belong to. -/
def c5Req : BookReq := ⟨"2025-01-01", "10:00", "11:00", 99, "k1-oven3", "tokA"⟩

/-- Claim C5 as stated is false: booking an existing appliance under a
kitchenId it does not belong to does not answer InvalidApplianceError — it
succeeds and persists the reservation under the bogus kitchen id. -/
theorem C5_counterexample :
    (c5State.appliances.filter (fun a => a.kitchen_id == c5Req.kitchenId)) = [] ∧
    (book c5Req c5State).1 = .ok "S1111111111A_2025-01-01_10:00_11:00" ∧
    (book c5Req c5State).2.reservations =
      [⟨"S1111111111A_2025-01-01_10:00_11:00", "S1111111111A", "2025-01-01",
        "10:00", "11:00", 99, "k1-oven3", "oven", "confirmed"⟩] := by
  decide

/-- C5 witness request: an appliance id that exists in no kitchen. -/
def c5wReq : BookReq := ⟨"2025-01-01", "10:00", "11:00", 1, "ghost-appliance", "tokA"⟩

/-- Witness for the amended C5 at a concrete unknown appliance id. -/
theorem C5_witness :
    (book c5wReq c5State).1 = .invalidAppliance ↔
      c5State.appliances.find? (fun x => x.id == c5wReq.applianceId) = none :=
  (C5_invalid_appliance_iff_unknown_id c5wReq c5State "S1111111111A" rfl rfl).1

/-! ### C6: cancel failure modes -/

/-- Claim C6, amended: `cancel_reservation` does *not* distinguish its
failure modes — both an unknown reservation id and a reservation owned by a
different identity answer the same HTTP 403 "Not your reservation" denial,
and in both cases the state is unchanged. -/
theorem C6_uniform_denial
    (rid token isic : String) (s : State)
    (htok : verify_token s token = some isic)
    (h : ∀ r, s.reservations.find? (fun q => q.id == rid) = some r → r.isic_number ≠ isic) :
    cancel rid token s = (.notYourReservation, s) :=
  cancel_denied_eq htok h

/-- C6 counterexample scenario: a stored reservation owned by identity A and
a caller logged in as identity B. -/
def c6State : State :=
  { tokens := [("tokB", "S2222222222B")]
    users := []
    appliances := [⟨"k1-oven3", 1, "oven", "Oven"⟩]
    reservations := [⟨"S1111111111A_2025-01-01_10:00_10:30", "S1111111111A",
      "2025-01-01", "10:00", "10:30", 1, "k1-oven3", "oven", "confirmed"⟩] }

/-- Claim C6 as stated is false: cancelling an id that matches no stored
reservation and cancelling another identity's reservation produce the *same*
outcome — the single "Not your reservation" denial (there is no distinct
NotFoundError), with the state unchanged in both cases. -/
theorem C6_counterexample :
    cancel "no-such-reservation" "tokB" c6State =
      cancel "S1111111111A_2025-01-01_10:00_10:30" "tokB" c6State ∧
    (cancel "no-such-reservation" "tokB" c6State).1 = .notYourReservation ∧
    (c6State.reservations.filter (fun r => r.id == "no-such-reservation")) = [] ∧
    (∃ r ∈ c6State.reservations, r.id = "S1111111111A_2025-01-01_10:00_10:30" ∧
      r.isic_number ≠ "S2222222222B") := by
  refine ⟨rfl, by decide, by decide, by decide⟩

/-- Witness for the amended C6 at a concrete unknown reservation id. -/
theorem C6_witness :
    cancel "no-such-reservation" "tokB" c6State = (.notYourReservation, c6State) :=
  C6_uniform_denial "no-such-reservation" "tokB" "S2222222222B" c6State rfl
    (fun r hr => Option.noConfusion hr)

/-! ### Lemmas about cosine similarity and the gallery scan -/

lemma sumSq_nonneg (v : List ℝ) : 0 ≤ (v.map (fun x => x * x)).sum := by
  induction v with
  | nil => simp
  | cons x xs ih =>
    simp only [List.map_cons, List.sum_cons]
    exact add_nonneg (mul_self_nonneg x) ih

lemma dotList_self (v : List ℝ) : dotList v v = (v.map (fun x => x * x)).sum := by
  unfold dotList
  induction v with
  | nil => rfl
  | cons x xs ih => simp [ih]

lemma norm2_mul_self (v : List ℝ) : norm2 v * norm2 v = (v.map (fun x => x * x)).sum :=
  Real.mul_self_sqrt (sumSq_nonneg v)

lemma cosine_self_eq_one {v : List ℝ} (h : norm2 v ≠ 0) :
    cosine_similarity v v = 1 := by
  unfold cosine_similarity
  rw [if_neg (by tauto)]
  rw [dotList_self, ← norm2_mul_self]
  exact div_self (mul_ne_zero h h)

lemma cosine_zero_of_degenerate {e1 e2 : List ℝ} (h : norm2 e1 = 0 ∨ norm2 e2 = 0) :
    cosine_similarity e1 e2 = 0 := by
  unfold cosine_similarity
  exact if_pos h

lemma cosine_of_dot_zero {e1 e2 : List ℝ} (h : dotList e1 e2 = 0) :
    cosine_similarity e1 e2 = 0 := by
  unfold cosine_similarity
  split
  · rfl
  · rw [h, zero_div]

lemma fmuScan_no_update (probe : List ℝ) (l : List (String × List ℝ))
    (best : Option String) (bestSim : ℝ)
    (h : ∀ p ∈ l, ¬ bestSim < cosine_similarity probe p.2) :
    fmuScan probe l best bestSim = (best, bestSim) := by
  induction l with
  | nil => rfl
  | cons p rest ih =>
    obtain ⟨nm, emb⟩ := p
    simp only [fmuScan]
    rw [if_neg (h ⟨nm, emb⟩ (List.mem_cons_self _ _))]
    exact ih (fun q hq => h q (List.mem_cons_of_mem _ hq))

lemma fmuScan_sim_lt (probe : List ℝ) (l : List (String × List ℝ)) (c : ℝ)
    (hl : ∀ p ∈ l, cosine_similarity probe p.2 < c) :
    ∀ (best : Option String) (bestSim : ℝ), bestSim < c →
      (fmuScan probe l best bestSim).2 < c := by
  induction l with
  | nil => intro best bestSim hs; exact hs
  | cons p rest ih =>
    intro best bestSim hs
    obtain ⟨nm, emb⟩ := p
    simp only [fmuScan]
    by_cases h : bestSim < cosine_similarity probe emb
    · rw [if_pos h]
      exact ih (fun q hq => hl q (List.mem_cons_of_mem _ hq)) _ _
        (hl ⟨nm, emb⟩ (List.mem_cons_self _ _))
    · rw [if_neg h]
      exact ih (fun q hq => hl q (List.mem_cons_of_mem _ hq)) _ _ hs

lemma fmuScan_append (probe : List ℝ) (l1 l2 : List (String × List ℝ)) :
    ∀ (best : Option String) (bestSim : ℝ),
      fmuScan probe (l1 ++ l2) best bestSim =
        fmuScan probe l2 (fmuScan probe l1 best bestSim).1 (fmuScan probe l1 best bestSim).2 := by
  induction l1 with
  | nil => intro best bestSim; rfl
  | cons p rest ih =>
    intro best bestSim
    obtain ⟨nm, emb⟩ := p
    simp only [List.cons_append, fmuScan]
    by_cases h : bestSim < cosine_similarity probe emb
    · rw [if_pos h, if_pos h]
      exact ih _ _
    · rw [if_neg h, if_neg h]
      exact ih _ _

/-! ### C8: identity resolution -/

/-- Claim C8, amended: (a) if `(i, v)` is enrolled, `v` has nonzero norm, and
every *other* enrolled vector has similarity to `v` strictly below 1, then
probing with `v` resolves to `i` for any threshold <= 1 — without the
"every other" proviso the first-enrolled best match wins, see the
counterexample; (b) a probe orthogonal to every enrolled vector resolves to
NoMatch for any threshold > 0; (c) a zero-norm vector on either side yields
similarity 0, and a zero-norm probe never resolves to anyone, whatever the
threshold. -/
theorem C8_cosine_resolution :
    (∀ (pre post : List (String × List ℝ)) (i : String) (v : List ℝ) (threshold : ℝ),
      norm2 v ≠ 0 →
      (∀ p ∈ pre ++ post, cosine_similarity v p.2 < 1) →
      threshold ≤ 1 →
      find_matching_user (pre ++ (i, v) :: post) v threshold = some i) ∧
    (∀ (gallery : List (String × List ℝ)) (probe : List ℝ) (threshold : ℝ),
      (∀ p ∈ gallery, dotList probe p.2 = 0) → 0 < threshold →
      find_matching_user gallery probe threshold = none) ∧
    (∀ (e1 e2 : List ℝ), norm2 e1 = 0 ∨ norm2 e2 = 0 → cosine_similarity e1 e2 = 0) ∧
    (∀ (gallery : List (String × List ℝ)) (probe : List ℝ) (threshold : ℝ),
      norm2 probe = 0 → find_matching_user gallery probe threshold = none) := by
  refine ⟨?_, ?_, fun e1 e2 h => cosine_zero_of_degenerate h, ?_⟩
  · intro pre post i v threshold hnv hlt hthr
    have hone : cosine_similarity v v = 1 := cosine_self_eq_one hnv
    have hpre : (fmuScan v pre none 0).2 < 1 :=
      fmuScan_sim_lt v pre 1
        (fun p hp => hlt p (List.mem_append_left _ hp)) none 0 one_pos
    have hscan : fmuScan v (pre ++ (i, v) :: post) none 0 = (some i, 1) := by
      rw [fmuScan_append]
      simp only [fmuScan, hone]
      rw [if_pos hpre]
      exact fmuScan_no_update v post (some i) 1
        (fun p hp => not_lt_of_gt (hlt p (List.mem_append_right _ hp)))
    unfold find_matching_user
    rw [hscan]
    exact if_pos hthr
  · intro gallery probe threshold hdot hthr
    have hscan : fmuScan probe gallery none 0 = (none, 0) :=
      fmuScan_no_update probe gallery none 0
        (fun p hp => by rw [cosine_of_dot_zero (hdot p hp)]; exact lt_irrefl 0)
    unfold find_matching_user
    rw [hscan]
    exact if_neg (not_le.mpr hthr)
  · intro gallery probe threshold h
    have hscan : fmuScan probe gallery none 0 = (none, 0) :=
      fmuScan_no_update probe gallery none 0
        (fun p hp => by
          rw [cosine_zero_of_degenerate (Or.inl h)]
          exact lt_irrefl 0)
    unfold find_matching_user
    rw [hscan]
    dsimp only
    exact ite_self none

/-- The C8 counterexample gallery: the same unit vector enrolled for two
identities, the claimed identity second. -/
def c8Gallery : List (String × List ℝ) :=
  [("S2222222222B", [1, 0]), ("S1111111111A", [1, 0])]

lemma norm2_unit : norm2 [(1 : ℝ), 0] = 1 := by
  unfold norm2
  norm_num

lemma cosine_unit_self : cosine_similarity [(1 : ℝ), 0] [(1 : ℝ), 0] = 1 :=
  cosine_self_eq_one (by rw [norm2_unit]; exact one_ne_zero)

/-- Claim C8 as stated is false: vector `[1,0]` is enrolled for identity
"S1111111111A" and the probe equals it (similarity 1.0), the threshold 1/2
is <= 1, yet resolution answers the *other* identity enrolled earlier with
the same vector — strict `>` from 0.0 keeps the first best match. -/
theorem C8_counterexample :
    ("S1111111111A", ([1, 0] : List ℝ)) ∈ c8Gallery ∧
    (1/2 : ℝ) ≤ 1 ∧
    find_matching_user c8Gallery [1, 0] (1/2) = some "S2222222222B" := by
  refine ⟨by simp [c8Gallery], by norm_num, ?_⟩
  have hscan : fmuScan [(1 : ℝ), 0] c8Gallery none 0 = (some "S2222222222B", 1) := by
    unfold c8Gallery
    simp only [fmuScan, cosine_unit_self]
    rw [if_pos one_pos, if_neg (lt_irrefl 1)]
  unfold find_matching_user
  rw [hscan]
  exact if_pos (by norm_num)

/-- Witness for the amended C8 at a singleton gallery. -/
theorem C8_witness :
    find_matching_user [("S1111111111A", [(1 : ℝ), 0])] [(1 : ℝ), 0] (1/2) = some "S1111111111A" := by
  have h := C8_cosine_resolution.1 [] [] "S1111111111A" [(1 : ℝ), 0] (1/2)
    (by rw [norm2_unit]; exact one_ne_zero)
    (by intro p hp; simp at hp)
    (by norm_num)
  simpa using h

/-! ### C7: the door-access decision -/

/-- Claim C7, amended: if the probe resolves to no identity the door answer
is false with no reservation lookup; if it resolves to identity `i`, the
answer is true iff some confirmed reservation of `i` has `date = today(now)`
and `start_time <= strftime("%H:%M", now) <= end_time`, both endpoints
inclusive — the comparison is at *minute* granularity, because the code
formats `now` with "%H:%M", so any instant within the minute of the end time
(e.g. one second after the end boundary) still authorizes; a full minute
outside either boundary does not. -/
theorem C7_door_decision (probe : List ℝ) (now : Instant) (s : State) :
    (find_matching_user (enrolled s.users) probe (6/10 : ℝ) = none →
      esp_check probe now s = false) ∧
    (∀ isic, find_matching_user (enrolled s.users) probe (6/10 : ℝ) = some isic →
      (esp_check probe now s = true ↔
        ∃ r ∈ s.reservations, r.isic_number = isic ∧ r.date = now.date ∧
          textLe r.start_time (hhmm now) ∧ textLe (hhmm now) r.end_time ∧
          r.status = "confirmed")) := by
  constructor
  · intro h
    unfold esp_check
    rw [h]
  · intro isic h
    unfold esp_check
    rw [h]
    simp [List.any_eq_true, and_assoc]

/-- The C7 counterexample scenario: identity "S1111111111A" enrolled with the
unit vector, holding a confirmed reservation `[10:00,10:30)` today. -/
def c7State : State :=
  { tokens := []
    users := [("S1111111111A", some [1, 0])]
    appliances := [⟨"k1-oven3", 1, "oven", "Oven"⟩]
    reservations := [⟨"S1111111111A_2025-01-01_10:00_10:30", "S1111111111A",
      "2025-01-01", "10:00", "10:30", 1, "k1-oven3", "oven", "confirmed"⟩] }

/-- The instant 10:30:01 — one second past the reservation's end boundary
10:30:00. -/
def c7Now : Instant := ⟨"2025-01-01", 10, 30, 1⟩

/-- Seconds since midnight of an instant. -/
def secondsOfDay (t : Instant) : Nat := 3600 * t.hour + 60 * t.minute + t.second

/-- The digit value of an ASCII digit character. -/
def digitVal (c : Char) : Nat := c.toNat - 48

/-- Minutes since midnight encoded by an "HH:MM" TEXT value. -/
def minutesOf (t : String) : Nat :=
  match t.toList with
  | [h1, h2, _, m1, m2] =>
    60 * (10 * digitVal h1 + digitVal h2) + (10 * digitVal m1 + digitVal m2)
  | _ => 0

/-- Claim C7 as stated is false at its boundary clause: at 10:30:01, one
second outside the end boundary 10:30 of the confirmed reservation, the door
still authorizes, because the code truncates `now` to "%H:%M" before the
TEXT comparison. -/
theorem C7_counterexample :
    secondsOfDay c7Now = 60 * minutesOf "10:30" + 1 ∧
    (∀ r ∈ c7State.reservations,
      r.end_time = "10:30" ∧ r.date = c7Now.date ∧ r.status = "confirmed") ∧
    esp_check [1, 0] c7Now c7State = true := by
  have hfind : find_matching_user (enrolled c7State.users) [(1 : ℝ), 0] (6/10 : ℝ) =
      some "S1111111111A" := by
    have hscan : fmuScan [(1 : ℝ), 0] (enrolled c7State.users) none 0 =
        (some "S1111111111A", 1) := by
      show fmuScan [(1 : ℝ), 0] [("S1111111111A", [1, 0])] none 0 = _
      simp only [fmuScan, cosine_unit_self]
      rw [if_pos one_pos]
    unfold find_matching_user
    rw [hscan]
    exact if_pos (by norm_num)
  refine ⟨by decide, by decide, ?_⟩
  unfold esp_check
  rw [hfind]
  decide

/-- Witness for the amended C7: with an empty gallery the probe resolves to
nobody and the door stays shut. -/
theorem C7_witness :
    esp_check [(1 : ℝ), 0] ⟨"2025-01-01", 10, 0, 0⟩
      { tokens := [], users := [], appliances := [], reservations := [] } = false := by
  apply (C7_door_decision [(1 : ℝ), 0] ⟨"2025-01-01", 10, 0, 0⟩ _).1
  unfold find_matching_user
  have hscan : fmuScan [(1 : ℝ), 0] (enrolled []) none 0 = (none, 0) := rfl
  rw [hscan]
  exact if_neg (by norm_num)

/-! ### C9: the availability listing -/

/-- The C9 scenario: kitchen 1 with two appliances; one confirmed
reservation on the oven, none on the microwave. -/
def c9State : State :=
  { tokens := []
    users := []
    appliances := [⟨"k1-oven3", 1, "oven", "Oven"⟩,
      ⟨"k1-microwave1", 1, "microwave", "Microwave 1"⟩]
    reservations := [⟨"S1111111111A_2025-01-01_10:00_10:30", "S1111111111A",
      "2025-01-01", "10:00", "10:30", 1, "k1-oven3", "oven", "confirmed"⟩] }

/-- Claim C9's divergence, evaluated: the availability response does list
every appliance of the kitchen (the unreserved microwave appears with an
empty sequence), but the listed interval's `id` field holds the *appliance*
id "k1-oven3" — the only reservation's id is
"S1111111111A_2025-01-01_10:00_10:30", which the grouping loop never emits,
its SELECT not even fetching it. -/
theorem C9_id_field_holds_appliance_id :
    get_availability "2025-01-01" 1 c9State =
      [⟨"k1-oven3", "oven", "Oven", [⟨"k1-oven3", "10:00", "10:30", 1⟩]⟩,
       ⟨"k1-microwave1", "microwave", "Microwave 1", []⟩] ∧
    (∀ r ∈ c9State.reservations, r.id = "S1111111111A_2025-01-01_10:00_10:30") := by
  decide

/-! ### C10: the advertised limits are not enforced -/

/-- An interval lying entirely outside the advertised operating hours
06:00-23:00. -/
def outsideOperatingHours (req : BookReq) : Prop :=
  textLe req.endTime operatingHoursStart ∨ textLe operatingHoursEnd req.startTime

instance (req : BookReq) : Decidable (outsideOperatingHours req) := by
  unfold outsideOperatingHours; infer_instance

/-- The requested duration in minutes, as the advertised limits measure it. -/
def durationOf (req : BookReq) : Int :=
  (minutesOf req.endTime : Int) - minutesOf req.startTime

/-- Claim C10, amended: `create_reservation` enforces none of the limits the
availability response advertises — a request entirely outside the operating
hours, or shorter than minDuration, or longer than maxDuration, still
succeeds and persists a confirmed reservation — provided its derived id is
fresh and, on the requested (appliance, date, kitchenId), the stored
confirmed rows all have start < end and none rule-overlaps the request (a
degenerate stored row can trip the SQL conflict test without overlapping,
see the counterexample). -/
theorem C10_advertised_limits_not_enforced
    (req : BookReq) (s : State) (isic : String) (a : Appliance)
    (htok : verify_token s req.token = some isic)
    (happ : s.appliances.find? (fun x => x.id == req.applianceId) = some a)
    (hfresh : s.reservations.any (fun r => r.id == reservationId isic req) = false)
    (hlim : outsideOperatingHours req ∨ durationOf req < (minDuration : Int) ∨
      (maxDuration : Int) < durationOf req)
    (hne : textLt req.startTime req.endTime)
    (hvalid : ∀ r ∈ s.reservations, r.status = "confirmed" → r.date = req.date →
      r.kitchen_id = req.kitchenId → r.appliance_id = req.applianceId →
      textLt r.start_time r.end_time)
    (hnoover : ∀ r ∈ s.reservations, r.status = "confirmed" → r.date = req.date →
      r.kitchen_id = req.kitchenId → r.appliance_id = req.applianceId →
      ¬ specOverlap r.start_time r.end_time req.startTime req.endTime) :
    (book req s).1 = .ok (reservationId isic req) ∧
    (book req s).2.reservations = s.reservations ++ [mkReservation isic a req] ∧
    (mkReservation isic a req).status = "confirmed" := by
  have hnc : s.reservations.any (fun r => codeConflict r req) = false := by
    refine List.any_eq_false.mpr ?_
    intro r hr hcc
    obtain ⟨hd, hk, hap, hst, htrio⟩ := (codeConflict_eq_true_iff r req).mp hcc
    exact hnoover r hr hst hd hk hap
      (codeTimes_implies_specOverlap (hvalid r hr hst hd hk hap) hne htrio)
  rw [book_ok_eq htok hnc happ hfresh]
  exact ⟨rfl, rfl, rfl⟩

/-- The C10 counterexample scenario: two users, one appliance, empty table. -/
def c10State : State :=
  { tokens := [("tokA", "S1111111111A"), ("tokB", "S2222222222B")]
    users := []
    appliances := [⟨"k1-oven3", 1, "oven", "Oven"⟩]
    reservations := [] }

/-- First C10 booking: a degenerate empty interval `[02:00,02:00)` — the
code accepts it, having no start/end validation. -/
def c10Req0 : BookReq := ⟨"2025-01-01", "02:00", "02:00", 1, "k1-oven3", "tokA"⟩

/-- Second C10 booking: `[02:00,02:03)`, entirely outside operating hours
and of duration 3 < minDuration, overlapping nothing. -/
def c10Req1 : BookReq := ⟨"2025-01-01", "02:00", "02:03", 1, "k1-oven3", "tokB"⟩

/-- Claim C10 as stated is false: after the (reachable) degenerate booking,
the `[02:00,02:03)` request rule-overlaps no existing confirmed reservation
and its derived id is fresh, yet the booking is rejected with the conflict
error — the SQL disjunction's contained-interval arm fires on the empty
stored row. -/
theorem C10_counterexample :
    (book c10Req0 c10State).1 = .ok "S1111111111A_2025-01-01_02:00_02:00" ∧
    outsideOperatingHours c10Req1 ∧
    durationOf c10Req1 < (minDuration : Int) ∧
    (∀ r ∈ (book c10Req0 c10State).2.reservations,
      ¬ specOverlap r.start_time r.end_time c10Req1.startTime c10Req1.endTime ∧
      r.id ≠ reservationId "S2222222222B" c10Req1) ∧
    (book c10Req1 (book c10Req0 c10State).2).1 = .conflict := by
  decide

/-- Witness for the amended C10: on the empty table, the short out-of-hours
request `[02:00,02:03)` books fine. -/
theorem C10_witness :
    (book c10Req1 c10State).1 = .ok (reservationId "S2222222222B" c10Req1) :=
  (C10_advertised_limits_not_enforced c10Req1 c10State "S2222222222B"
    ⟨"k1-oven3", 1, "oven", "Oven"⟩ rfl rfl rfl (Or.inl (by decide)) (by decide)
    (fun r hr => absurd hr (List.not_mem_nil r))
    (fun r hr => absurd hr (List.not_mem_nil r))).1

end SmartKitchen
